import Mathlib

/-!
Verification development for the language-identification notebooks of the
repository (fine-tuned BERT notebook and the TF-IDF / Word2Vec notebook).

The Python glue code is shallowly embedded: pure functions become Lean
functions, the global interpreter state that matters (the module-level
`random` generator state and the free global name `word2vec`) is passed
explicitly, and failure (Python exceptions) is modelled with `Except` /
`Option`.
-/

/-- Exceptions raised by the embedded Python code: name-resolution failure
(`NameError`), value/shape failures from numpy and scikit-learn
(`ValueError`), and dictionary-lookup failure (`KeyError`). -/
inductive PyErr where
  | nameError
  | valueError
  | keyError
deriving DecidableEq, Repr

/-- Decidable equality for `Except` results, used to evaluate the embedded
code on concrete inputs. -/
instance {ε : Type} {α : Type} [DecidableEq ε] [DecidableEq α] :
    DecidableEq (Except ε α) := fun a b =>
  match a, b with
  | Except.ok x, Except.ok y =>
    match decEq x y with
    | isTrue h => isTrue (by rw [h])
    | isFalse h => isFalse (by intro hc; cases hc; exact h rfl)
  | Except.error x, Except.error y =>
    match decEq x y with
    | isTrue h => isTrue (by rw [h])
    | isFalse h => isFalse (by intro hc; cases hc; exact h rfl)
  | Except.ok _, Except.error _ => isFalse (by intro hc; cases hc)
  | Except.error _, Except.ok _ => isFalse (by intro hc; cases hc)

/-- Evaluation of a Python list comprehension / accumulation loop whose body
may raise: elements are produced left to right and the first exception
aborts the whole evaluation. -/
def pyMapExcept {α β : Type} (f : α → Except PyErr β) : List α → Except PyErr (List β)
  | [] => Except.ok []
  | x :: xs =>
    match f x with
    | Except.error e => Except.error e
    | Except.ok v =>
      match pyMapExcept f xs with
      | Except.error e => Except.error e
      | Except.ok vs => Except.ok (v :: vs)

/-! ### Deterministic sampler (`load_data_sample` / `load_datasets`)

The notebook code is

    def load_data_sample(filepath, sample_size, random_state=42):
        with open(filepath, 'r', encoding='utf-8') as file:
          lines = file.readlines()
        random.seed(random_state)
        sampled_indices = random.sample(range(len(lines)), sample_size)
        sampled_lines = [lines[i].strip() for i in sampled_indices]
        return sampled_lines

The file contents are embedded as the list of its lines.  The module-level
pseudo-random generator is modelled by a `Nat` state with a deterministic
step function `lcgNext`; `random.seed` replaces the ambient state by a state
determined by the seed alone, and `random.sample(range(n), k)` draws `k`
distinct indices without replacement (a `ValueError` — here `none` — when
`k` exceeds `n`).  The concrete pseudo-random stream of CPython is abstracted
by a linear congruential generator: every claim below depends only on the
stream being a deterministic function of the seed, never on its values. -/

/-- One step of the pseudo-random stream (64-bit linear congruential step). -/
def lcgNext (s : Nat) : Nat :=
  (s * 6364136223846793005 + 1442695040888963407) % 2 ^ 64

/-- Model of `random.seed(random_state)`: the resulting generator state is a
function of the seed alone, independent of the previous ambient state. -/
def randomSeed (random_state : Nat) : Nat :=
  lcgNext (random_state % 2 ^ 64)

/-- Selection loop of `random.sample`: draw `k` elements without replacement
from `pool`, Fisher–Yates style (pick a pseudo-random position, remove it,
recurse).  The empty-pool guard is unreachable whenever `k ≤ pool.length`. -/
def sampleAux : Nat → List Nat → Nat → List Nat
  | 0, _, _ => []
  | k + 1, pool, st =>
    if pool.length = 0 then []
    else
      let st1 := lcgNext st
      let i := st1 % pool.length
      pool.getD i 0 :: sampleAux k (pool.eraseIdx i) st1

/-- Model of `random.sample(range(n), k)`: `k` distinct members of
`range(n)`, or a `ValueError` (`none`) when the requested count exceeds the
population size. -/
def random_sample (st : Nat) (n k : Nat) : Option (List Nat) :=
  if k ≤ n then some (sampleAux k (List.range n) st) else none

/-- Embedding of `load_data_sample`.  `rng` is the ambient state of the
module-level generator at call time; the function starts by re-seeding
(`random.seed(random_state)`), so `rng` is discarded, exactly as in the
source.  `lines` is the content of the file at `filepath`. -/
def load_data_sample (rng : Nat) (lines : List String) (sample_size : Nat)
    (random_state : Nat) : Option (List String) :=
  let _ := rng
  let st := randomSeed random_state
  (random_sample st lines.length sample_size).map
    (fun idxs => idxs.map (fun i => (lines.getD i "").trim))

/-- Embedding of `load_datasets`: four `load_data_sample` calls, the train
pair with `train_sample_size` and the test pair with `test_sample_size`, all
with the Python-default `random_state = 42`.  Each inner call re-seeds the
generator, so the ambient state handed from one call to the next is
irrelevant; `rng` is passed unchanged. -/
def load_datasets (rng : Nat)
    (trainData trainLabels testData testLabels : List String)
    (train_sample_size test_sample_size : Nat) :
    Option (List String × List String × List String × List String) :=
  match load_data_sample rng trainData train_sample_size 42,
        load_data_sample rng trainLabels train_sample_size 42,
        load_data_sample rng testData test_sample_size 42,
        load_data_sample rng testLabels test_sample_size 42 with
  | some xtr, some ytr, some xte, some yte => some (xtr, ytr, xte, yte)
  | _, _, _, _ => none

/-! ### Label indexer (`lang2idx` / `encode_labels` / `index_to_language`)

The fine-tuning notebook builds

    all_labels = sorted(set(y_train) | set(y_test))
    lang2idx = {lang: idx for idx, lang in enumerate(all_labels)}
    def encode_labels(labels):
        return np.array([lang2idx[lang] for lang in labels])

and, in its reload-and-predict section,

    unique_labels = sorted(set(y_train))
    label_to_index = {label: idx for idx, label in enumerate(unique_labels)}
    index_to_language = {idx: label for label, idx in label_to_index.items()}

A Python `sorted(set(l))` is embedded as an insertion sort of the
deduplicated list; dictionary indexing that can miss raises `KeyError`. -/

/-- Lexicographic comparison of character lists by code point, the order
Python's `sorted` uses on strings. -/
def lexLe : List Char → List Char → Bool
  | [], _ => true
  | _ :: _, [] => false
  | a :: as, b :: bs =>
    if a < b then true
    else if a = b then lexLe as bs
    else false

/-- Python's string order: lexicographic by code point. -/
def strLeB (a b : String) : Bool := lexLe a.data b.data

/-- Embedding of `sorted(set(l))`: the distinct elements of `l` in
ascending order. -/
def py_sorted_set (l : List String) : List String :=
  List.insertionSort (fun a b => strLeB a b = true) l.dedup

/-- Embedding of `all_labels = sorted(set(y_train) | set(y_test))`. -/
def all_labels (y_train y_test : List String) : List String :=
  py_sorted_set (y_train ++ y_test)

/-- Embedding of the dictionary lookup `lang2idx[lang]`: the position of
`lang` in `all_labels`, or a `KeyError` when `lang` is not a key. -/
def lang2idx (y_train y_test : List String) (lang : String) : Except PyErr Nat :=
  let al := all_labels y_train y_test
  if lang ∈ al then Except.ok (al.indexOf lang) else Except.error PyErr.keyError

/-- Embedding of `encode_labels`: `[lang2idx[lang] for lang in labels]`,
aborting with `KeyError` at the first unknown label. -/
def encode_labels (y_train y_test : List String) (labels : List String) :
    Except PyErr (List Nat) :=
  pyMapExcept (lang2idx y_train y_test) labels

/-- Embedding of `unique_labels = sorted(set(y_train))`. -/
def unique_labels (y_train : List String) : List String :=
  py_sorted_set y_train

/-- Embedding of the dictionary lookup `index_to_language[idx]`.  Since
`label_to_index` maps the `k`-th element of `unique_labels` to `k`, the
inverted dictionary maps `k` to the `k`-th element of `unique_labels`;
a missing key raises `KeyError`. -/
def index_to_language (y_train : List String) (idx : Nat) : Except PyErr String :=
  match (unique_labels y_train)[idx]? with
  | some lab => Except.ok lab
  | none => Except.error PyErr.keyError

/-- Round-trip of the label indexer exactly as the inference section of the
notebook performs it: encode with `lang2idx`, decode with
`index_to_language`. -/
def label_roundtrip (y_train y_test : List String) (lang : String) :
    Except PyErr String :=
  match lang2idx y_train y_test lang with
  | Except.ok i => index_to_language y_train i
  | Except.error e => Except.error e

/-! ### Word2Vec / TF-IDF prediction stack
(`word2vec_transform`, `predict_language`, `train_and_tune_model`,
`predict_and_evaluate`)

The second notebook defines

    def word2vec_transform(sentences, vector_size=100, window=5, min_count=1, epochs=10):
        model = Word2Vec(sentences, ...)
        ...
        return {word: model.wv[word] for word in model.wv.index_to_key}

    def predict_language(text, model, vectorizer_type='word2vec'):
        if vectorizer_type == 'word2vec':
            tokenized_text = word_tokenize(text.lower())
            transformed_text = np.mean([word2vec[word] for word in tokenized_text
                                        if word in word2vec], axis=0, keepdims=True)
            return model.predict(transformed_text)[0]

    def train_and_tune_model(X_train, y_train, vectorizer_type='tfidf'):
        ... (word2vec branch) ...
        X_train_transformed = word2vec_transform(X_train)
        pipeline = Pipeline([('classifier', LogisticRegression(max_iter=10000))])
        pipeline.fit(X_train_transformed, y_train)
        ...

    def predict_and_evaluate(X, y, model, vectorizer_type):
        predictions = []
        for index, text in enumerate(X):
            predictions.append(predict_language(text, model, vectorizer_type))
            ...
        accuracy = accuracy_score(y, predictions)
        return accuracy

Notes on the embedding, each traceable to the source or the semantics of
the libraries and of Python itself:
  * `predict_language` has no branch for any `vectorizer_type` other than
    `'word2vec'`; a Python function that falls off its end returns `None`,
    embedded as `Except.ok none`.
  * Inside `predict_language`, `word2vec` is a free name.  No statement of
    either notebook assigns the module-level name `word2vec` (the imports
    bind `Word2Vec`, and `word2vec_transform` only feeds a local inside
    `train_and_tune_model`), so in the notebook environment the name is
    unbound.  The binding is passed explicitly as `g : Option W2VDict`;
    the notebook environment is `notebook_word2vec_global = none`.
    Evaluating the comprehension body with `g = none` raises `NameError`;
    when the tokenized text is empty the body is never evaluated, so no
    `NameError` occurs and the comprehension yields `[]`.
  * `word_tokenize` IS imported (`from nltk.tokenize import word_tokenize`),
    so the tokenizer is bound; nltk's tokenization is abstracted as
    whitespace splitting, which is all the claims use.
  * `np.mean(rows, axis=0, keepdims=True)` on a non-empty list of `d`-vectors
    is the `1 × d` row of column means; on the empty list it is the 1-D
    array `[nan]` (numpy warns and yields `nan` instead of raising).
  * `model.predict` (scikit-learn) validates its input: a 1-D or NaN row —
    which is exactly the empty-mean case — raises `ValueError`, as does a
    row whose width differs from the fitted feature dimension.  A fitted
    classifier is abstracted as a feature dimension plus an opaque
    total prediction function on rows of that width.
  * `accuracy_score(y, predictions)` (scikit-learn) is the fraction of
    positions where the two sequences agree exactly; inconsistent lengths
    raise `ValueError`.
  * gensim's `Word2Vec(sentences, ...)` iterates each element of
    `sentences`; the notebook passes a list of `str`, and iterating a
    Python `str` yields its characters, so `model.wv.index_to_key` is
    (as a set) the distinct characters of the corpus (`min_count=1`).
    The trained vectors themselves are abstracted as a function `wv`. -/

/-- A Word2Vec word-vector dictionary (`{word: vector}`), with rational
vector entries. -/
abbrev W2VDict := List (String × List ℚ)

/-- Dictionary lookup used for both `word in word2vec` and
`word2vec[word]`. -/
def dictLookup (d : W2VDict) (w : String) : Option (List ℚ) :=
  (d.find? (fun p => p.1 == w)).map (fun p => p.2)

/-- Whitespace splitting on a character list: accumulates the current token
and emits it at each space. -/
def splitWsAux : List Char → List Char → List String
  | [], acc => if acc = [] then [] else [String.mk acc.reverse]
  | c :: cs, acc =>
    if c = ' ' then
      if acc = [] then splitWsAux cs []
      else String.mk acc.reverse :: splitWsAux cs []
    else splitWsAux cs (c :: acc)

/-- Model of nltk's `word_tokenize` (simplified to whitespace splitting). -/
def word_tokenize (s : String) : List String :=
  splitWsAux s.data []

/-- Embedding of Python `str.lower()` (character-wise lowering). -/
def pyLower (s : String) : String := String.mk (s.data.map Char.toLower)

/-- Result of `np.mean(rows, axis=0, keepdims=True)`: the 1-D `[nan]` array
when `rows` is empty, otherwise the `1 × d` row of column means. -/
inductive MeanRes where
  | nanRow
  | row (v : List ℚ)
deriving DecidableEq

/-- Embedding of `np.mean(rows, axis=0, keepdims=True)` for a list of
equal-length vectors (the dictionary vectors all have length
`vector_size`). -/
def npMeanAxis0KD (rows : List (List ℚ)) : MeanRes :=
  match rows with
  | [] => MeanRes.nanRow
  | r :: _ =>
    MeanRes.row ((List.range r.length).map
      (fun j => (rows.map (fun v => v.getD j 0)).sum / (rows.length : ℚ)))

/-- Abstraction of a fitted scikit-learn classifier: the feature dimension
it was fitted on and its (opaque, total) decision function on feature
rows. -/
structure SkModel where
  dim : Nat
  predictOne : List ℚ → String

/-- Embedding of `model.predict(transformed_text)[0]`: scikit-learn's input
validation rejects the 1-D/NaN row produced by an empty mean and any row of
the wrong width (`ValueError`); otherwise the classifier's decision function
is applied. -/
def skPredict (m : SkModel) (x : MeanRes) : Except PyErr String :=
  match x with
  | MeanRes.nanRow => Except.error PyErr.valueError
  | MeanRes.row v =>
    if v.length = m.dim then Except.ok (m.predictOne v)
    else Except.error PyErr.valueError

/-- Embedding of the list comprehension
`[word2vec[word] for word in tokenized_text if word in word2vec]` with the
free global `word2vec` bound to `g`: with a non-empty iterable and `g`
unbound the first evaluation of the body raises `NameError`; with an empty
iterable the body never runs and the result is `[]`. -/
def w2vListComp (g : Option W2VDict) (toks : List String) :
    Except PyErr (List (List ℚ)) :=
  match toks with
  | [] => Except.ok []
  | _ :: _ =>
    match g with
    | none => Except.error PyErr.nameError
    | some d => Except.ok (toks.filterMap (dictLookup d))

/-- Embedding of `predict_language`.  `g` is the value of the free global
name `word2vec` at call time (`none` = unbound).  The function only has a
branch for `vectorizer_type == 'word2vec'`; any other vectorizer type falls
off the end of the function and returns Python `None` (`Except.ok none`). -/
def predict_language (g : Option W2VDict) (text : String) (model : SkModel)
    (vectorizer_type : String) : Except PyErr (Option String) :=
  if vectorizer_type = "word2vec" then
    match w2vListComp g (word_tokenize (pyLower text)) with
    | Except.error e => Except.error e
    | Except.ok vecs =>
      match skPredict model (npMeanAxis0KD vecs) with
      | Except.error e => Except.error e
      | Except.ok lab => Except.ok (some lab)
  else
    Except.ok none

/-- Value of the module-level name `word2vec` in both notebooks: no
top-level statement assigns it (the imports bind `Word2Vec`; the result of
`word2vec_transform` is only ever bound to the local `X_train_transformed`
inside `train_and_tune_model`), so it is unbound. -/
def notebook_word2vec_global : Option W2VDict := none

/-- Embedding of gensim's vocabulary `model.wv.index_to_key` for
`Word2Vec(sentences, ..., min_count=1)` where `sentences` is a list of
`str`: iterating a `str` yields its characters, so the vocabulary is the
set of distinct characters of the corpus. -/
def gensim_vocab (sentences : List String) : List Char :=
  (sentences.flatMap String.data).dedup

/-- Embedding of `word2vec_transform`: the returned value is
`{word: model.wv[word] for word in model.wv.index_to_key}` — one entry per
vocabulary token, the trained vectors abstracted as `wv`.  Contrary to its
own docstring, it does not produce one averaged embedding per sentence. -/
def word2vec_transform (wv : Char → List ℚ) (sentences : List String) :
    List (Char × List ℚ) :=
  (gensim_vocab sentences).map (fun c => (c, wv c))

/-- The pair handed to `pipeline.fit(X_train_transformed, y_train)` by the
`'word2vec'` branch of `train_and_tune_model`: the dictionary returned by
`word2vec_transform` together with the label list. -/
def train_fit_args_word2vec (wv : Char → List ℚ)
    (X_train y_train : List String) : List (Char × List ℚ) × List String :=
  (word2vec_transform wv X_train, y_train)

/-- Embedding of scikit-learn's `accuracy_score(y, predictions)`: the number
of positions where prediction and ground truth agree exactly, divided by the
number of samples; inconsistent lengths raise `ValueError`. -/
def accuracy_score (y : List String) (preds : List (Option String)) :
    Except PyErr ℚ :=
  if y.length = preds.length then
    Except.ok
      ((((y.zip preds).countP (fun p => decide (p.2 = some p.1))) : ℚ) /
        (y.length : ℚ))
  else Except.error PyErr.valueError

/-- Embedding of `predict_and_evaluate`: collect
`predict_language(text, model, vectorizer_type)` over `X` (the first raised
exception aborts the loop) and report `accuracy_score(y, predictions)`. -/
def predict_and_evaluate (g : Option W2VDict) (X y : List String)
    (model : SkModel) (vectorizer_type : String) : Except PyErr ℚ :=
  match pyMapExcept (fun t => predict_language g t model vectorizer_type) X with
  | Except.error e => Except.error e
  | Except.ok preds => accuracy_score y preds

/-! #### Lemmas about the sampler -/

theorem sampleAux_length {k : Nat} : ∀ {pool : List Nat} {st : Nat},
    k ≤ pool.length → (sampleAux k pool st).length = k := by
  induction k with
  | zero => intro pool st _; simp [sampleAux]
  | succ k ih =>
    intro pool st hk
    have hpos : 0 < pool.length := Nat.lt_of_lt_of_le (Nat.succ_pos k) hk
    have hne : ¬ pool.length = 0 := Nat.pos_iff_ne_zero.mp hpos
    have hi : lcgNext st % pool.length < pool.length := Nat.mod_lt _ hpos
    have herase : (pool.eraseIdx (lcgNext st % pool.length)).length
        = pool.length - 1 := List.length_eraseIdx_of_lt hi
    have hk' : k ≤ (pool.eraseIdx (lcgNext st % pool.length)).length := by
      rw [herase]
      exact Nat.le_sub_one_of_lt (Nat.lt_of_succ_le hk)
    simp only [sampleAux, hne, if_false, List.length_cons]
    rw [ih hk']

theorem sampleAux_mem {k : Nat} : ∀ {pool : List Nat} {st x : Nat},
    x ∈ sampleAux k pool st → x ∈ pool := by
  induction k with
  | zero => intro pool st x hx; simp [sampleAux] at hx
  | succ k ih =>
    intro pool st x hx
    by_cases hne : pool.length = 0
    · simp [sampleAux, hne] at hx
    · simp only [sampleAux, hne, if_false, List.mem_cons] at hx
      rcases hx with hx | hx
      · have hpos : 0 < pool.length := Nat.pos_iff_ne_zero.mpr hne
        have hi : lcgNext st % pool.length < pool.length := Nat.mod_lt _ hpos
        subst hx
        have := List.getD_eq_getElem?_getD pool (lcgNext st % pool.length) 0
        rw [this, List.getElem?_eq_getElem hi]
        exact List.getElem_mem hi
      · exact List.mem_of_mem_eraseIdx (ih hx)

theorem getD_not_mem_eraseIdx {l : List Nat} {i : Nat}
    (hnd : l.Nodup) (hi : i < l.length) : l.getD i 0 ∉ l.eraseIdx i := by
  intro hmem
  rw [List.mem_eraseIdx_iff_getElem] at hmem
  rcases hmem with ⟨j, hj, hji, hval⟩
  have hgetD : l.getD i 0 = l[i] := by
    rw [List.getD_eq_getElem?_getD, List.getElem?_eq_getElem hi]
    rfl
  rw [hgetD] at hval
  exact hji ((List.Nodup.getElem_inj_iff hnd).mp hval)

theorem sampleAux_nodup {k : Nat} : ∀ {pool : List Nat} {st : Nat},
    pool.Nodup → (sampleAux k pool st).Nodup := by
  induction k with
  | zero => intro pool st _; simp [sampleAux]
  | succ k ih =>
    intro pool st hnd
    by_cases hne : pool.length = 0
    · simp [sampleAux, hne]
    · have hpos : 0 < pool.length := Nat.pos_iff_ne_zero.mpr hne
      have hi : lcgNext st % pool.length < pool.length := Nat.mod_lt _ hpos
      simp only [sampleAux, hne, if_false, List.nodup_cons]
      constructor
      · intro hmem
        exact getD_not_mem_eraseIdx hnd hi (sampleAux_mem hmem)
      · exact ih ((List.eraseIdx_sublist pool _).nodup hnd)

theorem sampleAux_lt {k n st : Nat} {x : Nat}
    (hx : x ∈ sampleAux k (List.range n) st) : x < n :=
  List.mem_range.mp (sampleAux_mem hx)

/-! #### Lemmas about the lexicographic string order and `py_sorted_set` -/

theorem lexLe_total : ∀ as bs : List Char, lexLe as bs = true ∨ lexLe bs as = true := by
  intro as
  induction as with
  | nil => intro bs; left; rfl
  | cons a as ih =>
    intro bs
    cases bs with
    | nil => right; rfl
    | cons b bs =>
      rcases lt_trichotomy a b with hab | hab | hab
      · left; simp [lexLe, hab]
      · subst hab
        rcases ih bs with h | h
        · left; simp [lexLe, lt_irrefl, h]
        · right; simp [lexLe, lt_irrefl, h]
      · right; simp [lexLe, hab]

theorem lexLe_trans : ∀ as bs cs : List Char,
    lexLe as bs = true → lexLe bs cs = true → lexLe as cs = true := by
  intro as
  induction as with
  | nil => intro bs cs _ _; rfl
  | cons a as ih =>
    intro bs cs h1 h2
    cases bs with
    | nil => simp [lexLe] at h1
    | cons b bs =>
      cases cs with
      | nil => simp [lexLe] at h2
      | cons c cs =>
        rcases lt_trichotomy a b with hab | hab | hab
        · rcases lt_trichotomy b c with hbc | hbc | hbc
          · have : a < c := lt_trans hab hbc
            simp [lexLe, this]
          · subst hbc; simp [lexLe, hab]
          · simp [lexLe, not_lt_of_gt hbc, ne_of_gt hbc] at h2
        · subst hab
          rcases lt_trichotomy a c with hbc | hbc | hbc
          · simp [lexLe, hbc]
          · subst hbc
            simp only [lexLe, lt_irrefl, if_false, if_pos rfl] at h1 h2 ⊢
            exact ih bs cs h1 h2
          · simp [lexLe, not_lt_of_gt hbc, ne_of_gt hbc] at h2
        · simp [lexLe, not_lt_of_gt hab, ne_of_gt hab] at h1

theorem lexLe_antisymm : ∀ as bs : List Char,
    lexLe as bs = true → lexLe bs as = true → as = bs := by
  intro as
  induction as with
  | nil =>
    intro bs _ h2
    cases bs with
    | nil => rfl
    | cons b bs => simp [lexLe] at h2
  | cons a as ih =>
    intro bs h1 h2
    cases bs with
    | nil => simp [lexLe] at h1
    | cons b bs =>
      rcases lt_trichotomy a b with hab | hab | hab
      · simp [lexLe, not_lt_of_gt hab, ne_of_gt hab] at h2
      · subst hab
        simp only [lexLe, lt_irrefl, if_false, if_pos rfl] at h1 h2
        rw [ih bs h1 h2]
      · simp [lexLe, not_lt_of_gt hab, ne_of_gt hab] at h1

theorem mem_py_sorted_set {a : String} {l : List String} :
    a ∈ py_sorted_set l ↔ a ∈ l :=
  ((List.perm_insertionSort _ _).mem_iff).trans List.mem_dedup

theorem py_sorted_set_eq_of_mem_iff {l₁ l₂ : List String}
    (h : ∀ a, a ∈ l₁ ↔ a ∈ l₂) : py_sorted_set l₁ = py_sorted_set l₂ := by
  haveI : IsTotal String (fun a b => strLeB a b = true) :=
    ⟨fun a b => lexLe_total a.data b.data⟩
  haveI : IsTrans String (fun a b => strLeB a b = true) :=
    ⟨fun a b c => lexLe_trans a.data b.data c.data⟩
  haveI : IsAntisymm String (fun a b => strLeB a b = true) :=
    ⟨fun a b h1 h2 => String.ext (lexLe_antisymm a.data b.data h1 h2)⟩
  have hperm : List.Perm l₁.dedup l₂.dedup :=
    (List.perm_ext_iff_of_nodup (List.nodup_dedup _) (List.nodup_dedup _)).mpr
      (fun a => by rw [List.mem_dedup, List.mem_dedup]; exact h a)
  exact List.eq_of_perm_of_sorted
    (((List.perm_insertionSort _ _).trans hperm).trans
      (List.perm_insertionSort _ _).symm)
    (List.sorted_insertionSort _ _) (List.sorted_insertionSort _ _)

theorem all_labels_eq_unique {y_train y_test : List String}
    (hsub : ∀ l ∈ y_test, l ∈ y_train) :
    all_labels y_train y_test = unique_labels y_train :=
  py_sorted_set_eq_of_mem_iff (fun a => by
    simp only [List.mem_append]
    exact ⟨fun h => h.elim id (hsub a), Or.inl⟩)

theorem getElem?_indexOf_of_mem {l : List String} {a : String} (ha : a ∈ l) :
    l[l.indexOf a]? = some a := by
  have hlt := List.indexOf_lt_length.mpr ha
  rw [List.getElem?_eq_getElem hlt, List.getElem_indexOf]

/-! #### Claim C1: label-indexer round trip -/

/-- C1 (counterexample): the round trip as the claim states it fails on the
code.  With `y_train = ["eng"]` and `y_test = ["ara"]`, `lang2idx` is built
over the sorted union `["ara", "eng"]` while `index_to_language` is built
over `sorted(set(y_train)) = ["eng"]` only, so decoding the index produced
by encoding the vocabulary label `"ara"` returns `"eng"`, not `"ara"`. -/
theorem label_roundtrip_cex :
    label_roundtrip ["eng"] ["ara"] "ara" = Except.ok "eng" ∧
      Except.ok "eng" ≠ (Except.ok "ara" : Except PyErr String) := by
  constructor
  · decide
  · decide

/-- C1 (amended): whenever every evaluation label also occurs among the
training labels, the two dictionaries coincide and the round trip is the
identity: for every label of the vocabulary, decoding via
`index_to_language` the index produced by encoding via `lang2idx` returns
that label unchanged. -/
theorem label_roundtrip_id (y_train y_test : List String) (lang : String)
    (hsub : ∀ l ∈ y_test, l ∈ y_train) (hmem : lang ∈ y_train ++ y_test) :
    label_roundtrip y_train y_test lang = Except.ok lang := by
  have heq := all_labels_eq_unique hsub
  have hmem' : lang ∈ all_labels y_train y_test := mem_py_sorted_set.mpr hmem
  unfold label_roundtrip lang2idx
  simp only [hmem', if_true]
  unfold index_to_language
  rw [heq] at hmem' ⊢
  rw [getElem?_indexOf_of_mem hmem']

/-- Witness for C1: the amended round trip evaluated at a concrete
vocabulary. -/
theorem label_roundtrip_id_witness :
    label_roundtrip ["eng", "ara"] ["ara"] "ara" = Except.ok "ara" :=
  label_roundtrip_id ["eng", "ara"] ["ara"] "ara" (by decide) (by decide)

/-! #### Claim C7: encoding an unknown label -/

/-- C7 (counterexample): a label absent from the training label set but
present among the evaluation labels is encoded without error: with
`y_train = ["eng"]`, `y_test = ["ara"]`, `encode_labels` maps `"ara"` to
index `0` instead of raising. -/
theorem encode_labels_unknown_cex :
    encode_labels ["eng"] ["ara"] ["ara"] = Except.ok [0] ∧
      "ara" ∉ (["eng"] : List String) := by
  constructor
  · decide
  · decide

/-- C7 (amended): encoding a label absent from the union of the training
and evaluation label sets (the keys of `lang2idx`) raises a `KeyError`
rather than returning an arbitrary index. -/
theorem encode_labels_unknown_error (y_train y_test : List String)
    (lab : String) (h1 : lab ∉ y_train) (h2 : lab ∉ y_test) :
    encode_labels y_train y_test [lab] = Except.error PyErr.keyError := by
  have hnm : lab ∉ all_labels y_train y_test := by
    intro hm
    rcases List.mem_append.mp (mem_py_sorted_set.mp hm) with h | h
    · exact h1 h
    · exact h2 h
  simp [encode_labels, pyMapExcept, lang2idx, hnm]

/-- Witness for C7: the amended error behaviour evaluated at a concrete
unknown label. -/
theorem encode_labels_unknown_error_witness :
    encode_labels ["eng"] ["fra"] ["xyz"] = Except.error PyErr.keyError :=
  encode_labels_unknown_error ["eng"] ["fra"] "xyz" (by decide) (by decide)

/-! #### Claim C4: sampler determinism -/

/-- C4: two calls of `load_data_sample` on the same corpus with the same
seed and the same count return identical output sequences, whatever the
ambient generator states at the two call sites are — the function re-seeds
with `random_state` before sampling, so its result is a function of
(corpus, count, seed) alone. -/
theorem load_data_sample_deterministic (rng₁ rng₂ : Nat)
    (lines : List String) (n s : Nat) (_hn : n ≤ lines.length) :
    load_data_sample rng₁ lines n s = load_data_sample rng₂ lines n s := rfl

/-- Witness for C4: determinism at a concrete corpus, seed and count. -/
theorem load_data_sample_deterministic_witness :
    2 ≤ (["a", "b", "c"] : List String).length ∧
      load_data_sample 3 ["a", "b", "c"] 2 7 =
        load_data_sample 99 ["a", "b", "c"] 2 7 :=
  ⟨by decide, load_data_sample_deterministic 3 99 ["a", "b", "c"] 2 7 (by decide)⟩

/-! #### Claim C5: sampler count and error behaviour -/

/-- C5: `load_data_sample` errors (`none`, modelling the `ValueError` from
`random.sample`) whenever the requested count exceeds the number of lines;
when the count is at most the number of lines it returns exactly that many
records, drawn at pairwise-distinct in-range line indices (sampling without
replacement). -/
theorem load_data_sample_count_spec :
    (∀ rng (lines : List String) n s, lines.length < n →
        load_data_sample rng lines n s = none) ∧
      (∀ rng (lines : List String) n s, n ≤ lines.length →
        ∃ idxs : List Nat, idxs.Nodup ∧ idxs.length = n ∧
          (∀ i ∈ idxs, i < lines.length) ∧
          load_data_sample rng lines n s =
            some (idxs.map (fun i => (lines.getD i "").trim))) := by
  constructor
  · intro rng lines n s h
    simp [load_data_sample, random_sample, Nat.not_le.mpr h]
  · intro rng lines n s hn
    refine ⟨sampleAux n (List.range lines.length) (randomSeed s), ?_, ?_, ?_, ?_⟩
    · exact sampleAux_nodup (List.nodup_range _)
    · exact sampleAux_length (by rw [List.length_range]; exact hn)
    · intro i hi; exact sampleAux_lt hi
    · simp [load_data_sample, random_sample, hn]

/-- Witness for C5: both halves evaluated at concrete corpora. -/
theorem load_data_sample_count_spec_witness :
    load_data_sample 0 ["a"] 2 42 = none ∧
      ∃ idxs : List Nat, idxs.Nodup ∧ idxs.length = 1 ∧
        (∀ i ∈ idxs, i < (["a", "b"] : List String).length) ∧
        load_data_sample 0 ["a", "b"] 1 42 =
          some (idxs.map (fun i => ((["a", "b"] : List String).getD i "").trim)) :=
  ⟨load_data_sample_count_spec.1 0 ["a"] 2 42 (by decide),
   load_data_sample_count_spec.2 0 ["a", "b"] 1 42 (by decide)⟩

/-! #### Claim C9: index alignment of `load_datasets` -/

/-- C9: when the text file and the label file of a pair have the same number
of lines (and the requested counts fit), the text and label sequences
returned by `load_datasets` are index-aligned: one index list per pair —
computed from the shared seed 42, the shared count and the shared length —
selects, at every output position, the text and the label from the same
source line number. -/
theorem load_datasets_aligned (rng : Nat)
    (trainData trainLabels testData testLabels : List String)
    (ntr nte : Nat)
    (htr : trainData.length = trainLabels.length)
    (hte : testData.length = testLabels.length)
    (h1 : ntr ≤ trainData.length) (h2 : nte ≤ testData.length) :
    ∃ I J : List Nat, I.length = ntr ∧ J.length = nte ∧
      (∀ i ∈ I, i < trainData.length) ∧ (∀ j ∈ J, j < testData.length) ∧
      load_datasets rng trainData trainLabels testData testLabels ntr nte =
        some (I.map (fun i => (trainData.getD i "").trim),
              I.map (fun i => (trainLabels.getD i "").trim),
              J.map (fun j => (testData.getD j "").trim),
              J.map (fun j => (testLabels.getD j "").trim)) := by
  refine ⟨sampleAux ntr (List.range trainData.length) (randomSeed 42),
          sampleAux nte (List.range testData.length) (randomSeed 42),
          ?_, ?_, ?_, ?_, ?_⟩
  · exact sampleAux_length (by rw [List.length_range]; exact h1)
  · exact sampleAux_length (by rw [List.length_range]; exact h2)
  · intro i hi; exact sampleAux_lt hi
  · intro j hj; exact sampleAux_lt hj
  · unfold load_datasets load_data_sample random_sample
    rw [← htr, ← hte]
    simp [h1, h2]

/-- Witness for C9: alignment at concrete equal-length file pairs. -/
theorem load_datasets_aligned_witness :
    ∃ I J : List Nat, I.length = 1 ∧ J.length = 1 ∧
      (∀ i ∈ I, i < (["t1", "t2"] : List String).length) ∧
      (∀ j ∈ J, j < (["u1"] : List String).length) ∧
      load_datasets 0 ["t1", "t2"] ["l1", "l2"] ["u1"] ["m1"] 1 1 =
        some (I.map (fun i => ((["t1", "t2"] : List String).getD i "").trim),
              I.map (fun i => ((["l1", "l2"] : List String).getD i "").trim),
              J.map (fun j => ((["u1"] : List String).getD j "").trim),
              J.map (fun j => ((["m1"] : List String).getD j "").trim)) :=
  load_datasets_aligned 0 ["t1", "t2"] ["l1", "l2"] ["u1"] ["m1"] 1 1
    (by decide) (by decide) (by decide) (by decide)

/-! #### Claim C2: the TF-IDF branch of `predict_language` -/

/-- C2: evaluation of `predict_language` at the failing configuration — the
function has no branch for `vectorizer_type == 'tfidf'`, so every such call
falls off the end of the function and returns Python `None` instead of the
label predicted by the fitted TF-IDF pipeline, for every environment, text
and model. -/
theorem predict_language_tfidf_returns_none (g : Option W2VDict)
    (text : String) (model : SkModel) :
    predict_language g text model "tfidf" = Except.ok none := rfl

/-! #### Claim C3: what the Word2Vec training branch fits on -/

/-- C3: evaluation of the `'word2vec'` branch of `train_and_tune_model` at
the failing input — with the two training samples `["ab", "ca"]` the object
passed to `pipeline.fit` is the dictionary produced by `word2vec_transform`,
which has one entry per distinct corpus token (3 here), not one averaged
embedding per training sample (2 here, the length of the label list). -/
theorem train_word2vec_rows_cex (wv : Char → List ℚ) :
    (train_fit_args_word2vec wv ["ab", "ca"] ["l1", "l2"]).1.length = 3 ∧
      (train_fit_args_word2vec wv ["ab", "ca"] ["l1", "l2"]).2.length = 2 := by
  constructor
  · simp only [train_fit_args_word2vec, word2vec_transform, List.length_map]
    decide
  · rfl

/-! #### Claim C8: all-unknown-token inputs on the Word2Vec path -/

/-- C8: for every input text all of whose tokens are absent from the
embedding vocabulary, `predict_language` on the `'word2vec'` path fails
with an exception rather than returning a predicted label: with the global
`word2vec` unbound the comprehension raises `NameError` (or, for a
token-less text, the empty mean is rejected by `predict`); with it bound,
the all-unknown filter yields the empty list, whose `np.mean` is the 1-D
`nan` row that scikit-learn's `predict` rejects with `ValueError`. -/
theorem predict_language_all_unknown_fails (g : Option W2VDict)
    (text : String) (model : SkModel)
    (habs : ∀ d, g = some d →
      ∀ t ∈ word_tokenize (pyLower text), dictLookup d t = none) :
    ∃ e, predict_language g text model "word2vec" = Except.error e := by
  unfold predict_language
  rw [if_pos rfl]
  cases htok : word_tokenize (pyLower text) with
  | nil =>
    exact ⟨PyErr.valueError, by simp [w2vListComp, npMeanAxis0KD, skPredict]⟩
  | cons t ts =>
    cases g with
    | none => exact ⟨PyErr.nameError, by simp [w2vListComp]⟩
    | some d =>
      have hlk : ∀ x ∈ t :: ts, dictLookup d x = none := by
        rw [← htok]; exact habs d rfl
      have hfm : (t :: ts).filterMap (dictLookup d) = [] :=
        List.filterMap_eq_nil_iff.mpr hlk
      exact ⟨PyErr.valueError, by
        simp [w2vListComp, hfm, npMeanAxis0KD, skPredict]⟩

/-- Witness for C8: a concrete text both of whose relevant facts hold — the
dictionary is bound and contains none of the text's tokens — and the
prediction errors. -/
theorem predict_language_all_unknown_fails_witness :
    (∀ d, (some [("foo", [(1 : ℚ)])] : Option W2VDict) = some d →
      ∀ t ∈ word_tokenize (pyLower "bar"), dictLookup d t = none) ∧
      ∃ e, predict_language (some [("foo", [(1 : ℚ)])]) "bar"
        ⟨1, fun _ => "eng"⟩ "word2vec" = Except.error e := by
  have habs : ∀ d, (some [("foo", [(1 : ℚ)])] : Option W2VDict) = some d →
      ∀ t ∈ word_tokenize (pyLower "bar"), dictLookup d t = none := by
    intro d hd
    cases hd
    decide
  exact ⟨habs, predict_language_all_unknown_fails
    (some [("foo", [(1 : ℚ)])]) "bar" ⟨1, fun _ => "eng"⟩ habs⟩

/-! #### Claim C10: the free global `word2vec` -/

/-- C10 (counterexample): not every `'word2vec'` call fails with a
name-resolution error.  For a token-less input (here the empty string) the
comprehension body — the only place the free global `word2vec` occurs — is
never evaluated, so no `NameError` is raised; the call instead fails with a
`ValueError` when `predict` rejects the undefined empty mean. -/
theorem predict_language_w2v_unbound_cex :
    predict_language notebook_word2vec_global "" ⟨1, fun _ => "eng"⟩
        "word2vec" = Except.error PyErr.valueError ∧
      PyErr.valueError ≠ PyErr.nameError := by
  constructor
  · decide
  · decide

/-- C10 (amended): in the notebook environment the name `word2vec` is
unbound and `predict_language` never consults the model argument's data on
the `'word2vec'` path: every call whose tokenized input is non-empty fails
with a `NameError` from the free global, and a call whose tokenized input
is empty fails with a `ValueError` from predicting on the undefined empty
average — in both cases independently of the model artifact. -/
theorem predict_language_w2v_unbound (text : String) (model : SkModel) :
    (word_tokenize (pyLower text) ≠ [] →
      predict_language notebook_word2vec_global text model "word2vec" =
        Except.error PyErr.nameError) ∧
      (word_tokenize (pyLower text) = [] →
        predict_language notebook_word2vec_global text model "word2vec" =
          Except.error PyErr.valueError) := by
  constructor
  · intro h
    unfold predict_language
    rw [if_pos rfl]
    cases htok : word_tokenize (pyLower text) with
    | nil => exact absurd htok h
    | cons t ts => simp [w2vListComp, notebook_word2vec_global]
  · intro h
    unfold predict_language
    rw [if_pos rfl, h]
    simp [w2vListComp, npMeanAxis0KD, skPredict]

/-- Witness for C10: both branches of the amended statement at concrete
texts. -/
theorem predict_language_w2v_unbound_witness :
    predict_language notebook_word2vec_global "hello" ⟨1, fun _ => "eng"⟩
        "word2vec" = Except.error PyErr.nameError ∧
      predict_language notebook_word2vec_global "" ⟨1, fun _ => "eng"⟩
          "word2vec" = Except.error PyErr.valueError :=
  ⟨(predict_language_w2v_unbound "hello" ⟨1, fun _ => "eng"⟩).1 (by decide),
   (predict_language_w2v_unbound "" ⟨1, fun _ => "eng"⟩).2 (by decide)⟩

/-! #### Claim C6: the evaluator's accuracy -/

/-- C6: whenever `predict_and_evaluate` returns an accuracy, that accuracy
equals the number of positions at which the predicted label exactly equals
the ground-truth label divided by the number of evaluation samples; and at
a concrete evaluation set of 5 samples on which 3 predictions are correct
and 2 incorrect, the reported accuracy is `3/5 = 0.6`. -/
theorem predict_and_evaluate_accuracy :
    (∀ (g : Option W2VDict) (X y : List String) (model : SkModel)
        (vt : String) (acc : ℚ),
      predict_and_evaluate g X y model vt = Except.ok acc →
        ∃ preds,
          pyMapExcept (fun t => predict_language g t model vt) X =
              Except.ok preds ∧
            y.length = preds.length ∧
            acc = (((y.zip preds).countP
                (fun p => decide (p.2 = some p.1))) : ℚ) / (y.length : ℚ)) ∧
      predict_and_evaluate (some [("aa", [(1 : ℚ)]), ("bb", [2]), ("cc", [3])])
          ["aa", "bb", "cc", "aa", "bb"] ["eng", "fra", "deu", "ara", "rus"]
          ⟨1, fun v => if v = [(1 : ℚ)] then "eng"
            else if v = [(2 : ℚ)] then "fra" else "deu"⟩
          "word2vec" = Except.ok (3 / 5) ∧
      (3 / 5 : ℚ) = 0.6 := by
  refine ⟨?_, ?_, by norm_num⟩
  · intro g X y model vt acc h
    unfold predict_and_evaluate at h
    cases hc : pyMapExcept (fun t => predict_language g t model vt) X with
    | error e => rw [hc] at h; exact absurd h (by simp)
    | ok preds =>
      rw [hc] at h
      have h' : accuracy_score y preds = Except.ok acc := h
      unfold accuracy_score at h'
      by_cases hlen : y.length = preds.length
      · rw [if_pos hlen] at h'
        exact ⟨preds, rfl, hlen, (Except.ok.inj h').symm⟩
      · rw [if_neg hlen] at h'
        exact absurd h' (by simp)
  · have ht1 : word_tokenize (pyLower "aa") = ["aa"] := by decide
    have ht2 : word_tokenize (pyLower "bb") = ["bb"] := by decide
    have ht3 : word_tokenize (pyLower "cc") = ["cc"] := by decide
    have hd1 : dictLookup [("aa", [(1 : ℚ)]), ("bb", [2]), ("cc", [3])] "aa"
        = some [1] := by decide
    have hd2 : dictLookup [("aa", [(1 : ℚ)]), ("bb", [2]), ("cc", [3])] "bb"
        = some [2] := by decide
    have hd3 : dictLookup [("aa", [(1 : ℚ)]), ("bb", [2]), ("cc", [3])] "cc"
        = some [3] := by decide
    have hm1 : npMeanAxis0KD [[(1 : ℚ)]] = MeanRes.row [1] := by
      simp [npMeanAxis0KD]; decide
    have hm2 : npMeanAxis0KD [[(2 : ℚ)]] = MeanRes.row [2] := by
      simp [npMeanAxis0KD]; decide
    have hm3 : npMeanAxis0KD [[(3 : ℚ)]] = MeanRes.row [3] := by
      simp [npMeanAxis0KD]; decide
    have p1 : predict_language
        (some [("aa", [(1 : ℚ)]), ("bb", [2]), ("cc", [3])]) "aa"
        ⟨1, fun v => if v = [(1 : ℚ)] then "eng"
          else if v = [(2 : ℚ)] then "fra" else "deu"⟩
        "word2vec" = Except.ok (some "eng") := by
      simp [predict_language, w2vListComp, ht1, hd1, hm1, skPredict]
    have p2 : predict_language
        (some [("aa", [(1 : ℚ)]), ("bb", [2]), ("cc", [3])]) "bb"
        ⟨1, fun v => if v = [(1 : ℚ)] then "eng"
          else if v = [(2 : ℚ)] then "fra" else "deu"⟩
        "word2vec" = Except.ok (some "fra") := by
      simp [predict_language, w2vListComp, ht2, hd2, hm2, skPredict]
    have p3 : predict_language
        (some [("aa", [(1 : ℚ)]), ("bb", [2]), ("cc", [3])]) "cc"
        ⟨1, fun v => if v = [(1 : ℚ)] then "eng"
          else if v = [(2 : ℚ)] then "fra" else "deu"⟩
        "word2vec" = Except.ok (some "deu") := by
      simp [predict_language, w2vListComp, ht3, hd3, hm3, skPredict]
    simp [predict_and_evaluate, pyMapExcept, p1, p2, p3, accuracy_score,
      List.countP, List.countP.go]

/-- Witness for C6: the general matches-over-total formula applied to the
theorem's own concrete 5-sample run, whose accuracy is `3/5`. -/
theorem predict_and_evaluate_accuracy_witness :
    ∃ preds,
      pyMapExcept (fun t => predict_language
          (some [("aa", [(1 : ℚ)]), ("bb", [2]), ("cc", [3])]) t
          ⟨1, fun v => if v = [(1 : ℚ)] then "eng"
            else if v = [(2 : ℚ)] then "fra" else "deu"⟩
          "word2vec") ["aa", "bb", "cc", "aa", "bb"] = Except.ok preds ∧
        (["eng", "fra", "deu", "ara", "rus"] : List String).length =
            preds.length ∧
        (3 / 5 : ℚ) = ((((["eng", "fra", "deu", "ara", "rus"] : List String).zip
              preds).countP (fun p => decide (p.2 = some p.1))) : ℚ) /
            ((["eng", "fra", "deu", "ara", "rus"] : List String).length : ℚ) :=
  predict_and_evaluate_accuracy.1
    (some [("aa", [(1 : ℚ)]), ("bb", [2]), ("cc", [3])])
    ["aa", "bb", "cc", "aa", "bb"] ["eng", "fra", "deu", "ara", "rus"]
    ⟨1, fun v => if v = [(1 : ℚ)] then "eng"
      else if v = [(2 : ℚ)] then "fra" else "deu"⟩
    "word2vec" (3 / 5) predict_and_evaluate_accuracy.2.1
